import Mathlib

/-!
Verification of the caching namespace manager
(`internal/namespace/caching.go`).

The manager is a read-through, revision-consistent cache for namespace
definitions. We shallowly embed the Go code: the ristretto cache is an
association list from derived cache keys to definitions, the external
datastore collaborator is a record of functions, method calls become
explicit state passing, and each `ReadNamespace` call additionally reports
how many datastore fetches it performed (0 or 1) so that claims about
"no datastore contact" are expressible. Go's in-place mutation of the
manager's cache field becomes returning an updated manager.
-/

namespace SpiceDB

/-- A relation declared in a namespace definition (field `Relation` of the
v0 proto `NamespaceDefinition`); only its name matters here. -/
structure Relation where
  name : String
deriving DecidableEq, Repr

/-- A namespace definition (v0 proto `NamespaceDefinition`): a name, its
declared relations, and its user-defined (free-form) metadata entries. -/
structure NamespaceDefinition where
  name : String
  relation : List Relation
  metadata : List String
deriving DecidableEq, Repr

/-- The flat universe of Go `error` values this layer produces or sees:
the datastore's distinguishable not-found error (`datastore.ErrNamespaceNotFound`),
other datastore errors, key-derivation errors from `NamespaceCacheKey`,
this layer's `NewNamespaceNotFoundErr` and `NewRelationNotFoundErr`, and
the constructor's initialization error wrapping an underlying message. -/
inductive Err where
  | dsNamespaceNotFound (name : String)
  | dsOther (msg : String)
  | keyDerivation (msg : String)
  | namespaceNotFound (name : String)
  | relationNotFound (ns rel : String)
  | initialization (msg : String)
deriving DecidableEq, Repr

/-- The external datastore collaborator: `ds.ReadNamespace` (the metadata
component of its Go result is discarded by the caller, so it is omitted)
and `ds.NamespaceCacheKey`, both deterministic functions. -/
structure Datastore where
  readNamespace : String → Int → Except Err NamespaceDefinition
  namespaceCacheKey : String → Int → Except Err String

/-- Modelled from the spec: `namespace.FilterUserDefinedMetadata` (from
`pkg/namespace`, not under `src/`) strips the user-supplied/free-form
metadata fields from a fetched definition before caching or returning it. -/
def FilterUserDefinedMetadata (d : NamespaceDefinition) : NamespaceDefinition :=
  { d with metadata := [] }

/-- Modelled from the spec: `datastore.Ellipsis` (from `internal/datastore`,
not under `src/`), the reserved wildcard relation name. -/
def Ellipsis : String := "..."

/-- The contents of the ristretto cache: an association list from derived
cache keys to cached definitions. -/
abbrev Cache := List (String × NamespaceDefinition)

/-- `nsc.c.Get(key)`: probe the cache for a key. -/
def cacheGet (c : Cache) (k : String) : Option NamespaceDefinition :=
  (c.find? (fun p => p.1 == k)).map (fun p => p.2)

/-- `proto.Size(loaded)`: the serialized byte size used as the cache cost,
modelled as an abstract size measure. -/
def protoSize (d : NamespaceDefinition) : Nat :=
  d.name.length + d.relation.length + d.metadata.length

/-- `nsc.c.Set(key, value, cost)`: insert into the cache. The cost drives
only ristretto's advisory admission/eviction, which we abstract away
(the model always admits); newest insert wins on lookup. -/
def cacheSet (c : Cache) (k : String) (v : NamespaceDefinition) (cost : Nat) : Cache :=
  let _ := cost
  (k, v) :: c

/-- The `cachingManager` struct: the stored expiration duration and the
ristretto cache contents. The `readNsGroup` singleflight field has no
sequential state (its coalescing window is transient), so a single call's
`Do` is modelled as directly running the wrapped function. -/
structure CachingManager where
  expiration : Int
  c : Cache
deriving Repr

/-- The ristretto cache configuration (`ristretto.Config`), with the three
options the constructor sets. -/
structure RistrettoConfig where
  numCounters : Int
  maxCost : Int
  bufferItems : Int
deriving DecidableEq, Repr

/-- `NewCachingNamespaceManager`: apply the default configuration when none
is supplied, create the underlying cache, and wrap any creation failure in
the initialization error. `ristretto.NewCache` is third-party (not under
`src/`), so cache creation is a parameter producing the initial cache
contents or an error message. -/
def NewCachingNamespaceManager (newCache : RistrettoConfig → Except String Cache)
    (expiration : Int) (cacheConfig : Option RistrettoConfig) :
    Except Err CachingManager :=
  let cacheConfig : RistrettoConfig :=
    match cacheConfig with
    | none =>
      { numCounters := 10000  -- number of keys to track frequency of (10k).
        maxCost := 2 ^ 24     -- maximum cost of cache (16MB).
        bufferItems := 64 }   -- number of keys per Get buffer.
    | some cfg => cfg
  match newCache cacheConfig with
  | .error err => .error (.initialization err)
  | .ok cache => .ok { expiration := expiration, c := cache }

/-- `cachingManager.ReadNamespace`: derive the cache key, probe the cache,
and on a miss run the singleflight body (fetch, sanitize, re-derive the
key, store) and translate a datastore not-found error into
`NewNamespaceNotFoundErr(nsName)`. The result carries the updated manager
and the number of datastore fetches performed. -/
def ReadNamespace (ds : Datastore) (nsc : CachingManager) (nsName : String)
    (revision : Int) : Except Err NamespaceDefinition × CachingManager × Nat :=
  match ds.namespaceCacheKey nsName revision with
  | .error err => (.error err, nsc, 0)
  | .ok nsRevisionKey =>
    match cacheGet nsc.c nsRevisionKey with
    | some value => (.ok value, nsc, 0)
    | none =>
      -- We couldn't use the cached entry, load one (readNsGroup.Do body).
      let doRes : Except Err NamespaceDefinition × CachingManager :=
        match ds.readNamespace nsName revision with
        | .error err => (.error err, nsc)
        | .ok loadedRaw =>
          -- Remove user-defined metadata.
          let loaded := FilterUserDefinedMetadata loadedRaw
          match ds.namespaceCacheKey nsName revision with
          | .error err => (.error err, nsc)
          | .ok cacheKey =>
            -- Save it to the cache.
            (.ok loaded,
             { nsc with c := cacheSet nsc.c cacheKey loaded (protoSize loaded) })
      match doRes with
      | (.error (.dsNamespaceNotFound _), nsc') =>
        (.error (.namespaceNotFound nsName), nsc', 1)
      | (.error err, nsc') => (.error err, nsc', 1)
      | (.ok loadedRaw, nsc') => (.ok loadedRaw, nsc', 1)

/-- `cachingManager.ReadNamespaceAndTypes`: read the definition through the
cache, then always rebuild the type system from it.
`BuildNamespaceTypeSystemForManager` is not under `src/`; it is a parameter
taking the definition, the manager (as lookup source) and the revision.
Mirroring Go's `(nsDef, ts, err)` triple, the definition slot is populated
even when the type-system build fails. -/
def ReadNamespaceAndTypes {TS : Type} (ds : Datastore)
    (build : NamespaceDefinition → CachingManager → Int → Except Err TS)
    (nsc : CachingManager) (nsName : String) (revision : Int) :
    (Option NamespaceDefinition × Option TS × Option Err) × CachingManager × Nat :=
  match ReadNamespace ds nsc nsName revision with
  | (.error err, nsc', n) => ((none, none, some err), nsc', n)
  | (.ok nsDef, nsc', n) =>
    match build nsDef nsc' revision with
    | .error terr => ((some nsDef, none, some terr), nsc', n)
    | .ok ts => ((some nsDef, some ts, none), nsc', n)

/-- `cachingManager.CheckNamespaceAndRelation`: read the definition, then
accept the reserved wildcard when allowed, otherwise scan the declared
relations for an exact name match, otherwise fail with
`NewRelationNotFoundErr(namespace, relation)`. -/
def CheckNamespaceAndRelation (ds : Datastore) (nsc : CachingManager)
    (ns relation : String) (allowEllipsis : Bool) (revision : Int) :
    Except Err Unit × CachingManager × Nat :=
  match ReadNamespace ds nsc ns revision with
  | (.error err, nsc', n) => (.error err, nsc', n)
  | (.ok config, nsc', n) =>
    if allowEllipsis && relation == Ellipsis then
      (.ok (), nsc', n)
    else if config.relation.any (fun rel => rel.name == relation) then
      (.ok (), nsc', n)
    else
      (.error (.relationNotFound ns relation), nsc', n)

/-- `cachingManager.Close`: release the cache and report success. -/
def Close (nsc : CachingManager) : Except Err Unit × CachingManager :=
  (.ok (), { nsc with c := [] })

/-! ### Concrete fixtures for witnesses -/

/-- A sample definition with two relations and a user-defined metadata entry. -/
def docDef : NamespaceDefinition :=
  { name := "document"
    relation := [{ name := "viewer" }, { name := "editor" }]
    metadata := ["user note"] }

/-- A datastore whose fetch always succeeds with `docDef`. -/
def dsOk : Datastore :=
  { readNamespace := fun _ _ => .ok docDef
    namespaceCacheKey := fun n _ => .ok n }

/-- A datastore whose fetch reports not-found for every name. -/
def dsNotFound : Datastore :=
  { readNamespace := fun n _ => .error (.dsNamespaceNotFound n)
    namespaceCacheKey := fun n _ => .ok n }

/-- A datastore whose fetch fails with a generic (non-not-found) error. -/
def dsFailing : Datastore :=
  { readNamespace := fun _ _ => .error (.dsOther "boom")
    namespaceCacheKey := fun n _ => .ok n }

/-- A datastore whose key derivation fails. -/
def dsBadKey : Datastore :=
  { readNamespace := fun _ _ => .ok docDef
    namespaceCacheKey := fun _ _ => .error (.keyDerivation "bad revision") }

/-- A freshly constructed manager with an empty cache. -/
def mgr0 : CachingManager := { expiration := 0, c := [] }

/-! ### Claims -/

/-- C1: in `ReadNamespace(ctx, name, revision)`, an error from the
key-derivation function `NamespaceCacheKey` is returned to the caller
unchanged; on the fetch path, a datastore not-found result is returned as
`NamespaceNotFound` carrying the requested name, and any other datastore
fetch error is returned unchanged. -/
theorem readNamespace_error_mapping (ds : Datastore) (nsc : CachingManager)
    (nsName : String) (revision : Int) :
    (∀ e, ds.namespaceCacheKey nsName revision = .error e →
      ReadNamespace ds nsc nsName revision = (.error e, nsc, 0)) ∧
    (∀ key, ds.namespaceCacheKey nsName revision = .ok key →
      cacheGet nsc.c key = none →
      (∀ m, ds.readNamespace nsName revision = .error (.dsNamespaceNotFound m) →
        (ReadNamespace ds nsc nsName revision).1 =
          .error (.namespaceNotFound nsName)) ∧
      (∀ e, ds.readNamespace nsName revision = .error e →
        (∀ m, e ≠ Err.dsNamespaceNotFound m) →
        (ReadNamespace ds nsc nsName revision).1 = .error e)) := by
  refine ⟨fun e hk => ?_, fun key hk hg => ⟨fun m hf => ?_, fun e hf hne => ?_⟩⟩
  · simp [ReadNamespace, hk]
  · simp [ReadNamespace, hk, hg, hf]
  · cases e <;> simp [ReadNamespace, hk, hg, hf]
    exact absurd rfl (hne _)

/-- Witness for C1 at concrete inputs: a key-derivation failure is returned
unchanged, a datastore not-found becomes `NamespaceNotFound "document"`,
and a generic datastore error is returned unchanged. -/
theorem readNamespace_error_mapping_witness :
    ReadNamespace dsBadKey mgr0 "document" 1 =
      (.error (.keyDerivation "bad revision"), mgr0, 0) ∧
    (ReadNamespace dsNotFound mgr0 "document" 1).1 =
      .error (.namespaceNotFound "document") ∧
    (ReadNamespace dsFailing mgr0 "document" 1).1 = .error (.dsOther "boom") := by
  refine ⟨(readNamespace_error_mapping dsBadKey mgr0 "document" 1).1 _ rfl, ?_, ?_⟩
  · exact (((readNamespace_error_mapping dsNotFound mgr0 "document" 1).2
      "document" rfl rfl).1 "document" rfl)
  · exact (((readNamespace_error_mapping dsFailing mgr0 "document" 1).2
      "document" rfl rfl).2 (.dsOther "boom") rfl (by intro m h; cases h))

/-- C3: when the cache probe for the derived key hits, `ReadNamespace`
returns the cached definition with no error, leaves the manager unchanged,
and performs zero datastore fetches. -/
theorem readNamespace_cache_hit (ds : Datastore) (nsc : CachingManager)
    (nsName : String) (revision : Int) (key : String)
    (value : NamespaceDefinition)
    (hk : ds.namespaceCacheKey nsName revision = .ok key)
    (hv : cacheGet nsc.c key = some value) :
    ReadNamespace ds nsc nsName revision = (.ok value, nsc, 0) := by
  simp [ReadNamespace, hk, hv]

/-- Witness for C3: with `docDef` already cached under the derived key,
the call returns it with no fetch. -/
theorem readNamespace_cache_hit_witness :
    ReadNamespace dsNotFound
      { expiration := 0, c := [("document", docDef)] } "document" 1 =
      (.ok docDef, { expiration := 0, c := [("document", docDef)] }, 0) :=
  readNamespace_cache_hit dsNotFound
    { expiration := 0, c := [("document", docDef)] } "document" 1
    "document" docDef rfl rfl

/-- A cache is sanitized when every cached definition has had its
user-defined metadata removed. -/
def cacheSanitized (c : Cache) : Prop :=
  ∀ p ∈ c, p.2.metadata = ([] : List String)

/-- A successful cache probe on a sanitized cache yields a definition with
no user-defined metadata. -/
theorem cacheGet_sanitized {c : Cache} (h : cacheSanitized c) {k : String}
    {v : NamespaceDefinition} (hv : cacheGet c k = some v) :
    v.metadata = [] := by
  unfold cacheGet at hv
  cases hfind : c.find? (fun p => p.1 == k) with
  | none => simp [hfind] at hv
  | some p =>
    simp [hfind] at hv
    exact hv ▸ h p (List.mem_of_find?_eq_some hfind)

/-- C2: on the successful cache-miss path, the definition returned and the
definition stored in the cache are both exactly
`FilterUserDefinedMetadata` of the fetched definition; and starting from a
sanitized cache, no caller observes user-defined metadata on either the
miss or the hit path, and the cache stays sanitized. -/
theorem readNamespace_sanitization (ds : Datastore) (nsc : CachingManager)
    (nsName : String) (revision : Int) :
    (∀ key loaded, ds.namespaceCacheKey nsName revision = .ok key →
      cacheGet nsc.c key = none →
      ds.readNamespace nsName revision = .ok loaded →
      ReadNamespace ds nsc nsName revision =
        (.ok (FilterUserDefinedMetadata loaded),
         { nsc with
            c := cacheSet nsc.c key (FilterUserDefinedMetadata loaded)
              (protoSize (FilterUserDefinedMetadata loaded)) }, 1)) ∧
    (cacheSanitized nsc.c →
      (∀ d, (ReadNamespace ds nsc nsName revision).1 = .ok d →
        d.metadata = []) ∧
      cacheSanitized (ReadNamespace ds nsc nsName revision).2.1.c) := by
  constructor
  · intro key loaded hk hg hf
    simp [ReadNamespace, hk, hg, hf]
  · intro hsan
    cases hk : ds.namespaceCacheKey nsName revision with
    | error e => simpa [ReadNamespace, hk] using hsan
    | ok key =>
      cases hg : cacheGet nsc.c key with
      | some v =>
        refine ⟨fun d hd => ?_, ?_⟩
        · have : v = d := by simpa [ReadNamespace, hk, hg] using hd
          exact this ▸ cacheGet_sanitized hsan hg
        · simpa [ReadNamespace, hk, hg] using hsan
      | none =>
        cases hf : ds.readNamespace nsName revision with
        | error e =>
          cases e <;> simpa [ReadNamespace, hk, hg, hf] using hsan
        | ok loaded =>
          refine ⟨fun d hd => ?_, ?_⟩
          · have : FilterUserDefinedMetadata loaded = d := by
              simpa [ReadNamespace, hk, hg, hf] using hd
            simp [← this, FilterUserDefinedMetadata]
          · intro p hp
            have hc : (ReadNamespace ds nsc nsName revision).2.1.c =
                (key, FilterUserDefinedMetadata loaded) :: nsc.c := by
              simp [ReadNamespace, hk, hg, hf, cacheSet]
            rw [hc] at hp
            rcases List.mem_cons.mp hp with hp | hp
            · simp [hp, FilterUserDefinedMetadata]
            · exact hsan p hp

/-- Witness for C2: through `dsOk` (whose raw definition carries a
user-defined metadata entry), the first read returns and caches the
filtered definition, and the result of a fresh read has empty metadata. -/
theorem readNamespace_sanitization_witness :
    ReadNamespace dsOk mgr0 "document" 1 =
      (.ok (FilterUserDefinedMetadata docDef),
       { mgr0 with
          c := cacheSet mgr0.c "document" (FilterUserDefinedMetadata docDef)
            (protoSize (FilterUserDefinedMetadata docDef)) }, 1) ∧
    (∀ d, (ReadNamespace dsOk mgr0 "document" 1).1 = .ok d →
      d.metadata = []) := by
  refine ⟨(readNamespace_sanitization dsOk mgr0 "document" 1).1
    "document" docDef rfl rfl rfl, ?_⟩
  exact ((readNamespace_sanitization dsOk mgr0 "document" 1).2
    (by intro p hp; simp [mgr0] at hp)).1

/-- C4: when `ReadNamespace` succeeds with definition `D`,
`CheckNamespaceAndRelation` succeeds exactly when the wildcard is allowed
and requested, or the relation is declared in `D`; otherwise it fails with
`RelationNotFound` carrying both names; and it performs no cache writes of
its own (the manager state is exactly the one `ReadNamespace` produced). -/
theorem checkNamespaceAndRelation_spec (ds : Datastore) (nsc : CachingManager)
    (ns relation : String) (allowEllipsis : Bool) (revision : Int)
    (D : NamespaceDefinition)
    (h : (ReadNamespace ds nsc ns revision).1 = .ok D) :
    ((CheckNamespaceAndRelation ds nsc ns relation allowEllipsis revision).1 =
        .ok () ↔
      (allowEllipsis = true ∧ relation = Ellipsis) ∨
        relation ∈ D.relation.map Relation.name) ∧
    ((CheckNamespaceAndRelation ds nsc ns relation allowEllipsis revision).1 ≠
        .ok () →
      (CheckNamespaceAndRelation ds nsc ns relation allowEllipsis revision).1 =
        .error (.relationNotFound ns relation)) ∧
    (CheckNamespaceAndRelation ds nsc ns relation allowEllipsis revision).2 =
      (ReadNamespace ds nsc ns revision).2 := by
  rcases hres : ReadNamespace ds nsc ns revision with ⟨res, nsc', n⟩
  rw [hres] at h
  simp only at h
  subst h
  by_cases h1 : (allowEllipsis && relation == Ellipsis) = true
  · have h1' : allowEllipsis = true ∧ relation = Ellipsis := by
      simpa using h1
    simp [CheckNamespaceAndRelation, hres, h1, h1']
  · by_cases h2 : D.relation.any (fun rel => rel.name == relation) = true
    · have h2' : relation ∈ D.relation.map Relation.name := by
        simp only [List.any_eq_true, beq_iff_eq] at h2
        rcases h2 with ⟨rd, hrd, hname⟩
        exact hname ▸ List.mem_map_of_mem Relation.name hrd
      simp [CheckNamespaceAndRelation, hres, h1, h2, h2']
    · have h2' : relation ∉ D.relation.map Relation.name := by
        intro hmem
        rcases List.mem_map.mp hmem with ⟨rd, hrd, hname⟩
        exact h2 (List.any_eq_true.mpr ⟨rd, hrd, beq_iff_eq.mpr hname⟩)
      have h1' : ¬(allowEllipsis = true ∧ relation = Ellipsis) := by
        intro hc
        exact h1 (by simp [hc.1, hc.2])
      simp [CheckNamespaceAndRelation, hres, h1, h2, h2', h1']

/-- Witness for C4 over the cached definition with relations
viewer and editor: a declared relation passes, an undeclared one fails
with `RelationNotFound`, and the wildcard passes when allowed. -/
theorem checkNamespaceAndRelation_spec_witness :
    (CheckNamespaceAndRelation dsOk mgr0 "document" "editor" false 1).1 =
      .ok () ∧
    (CheckNamespaceAndRelation dsOk mgr0 "document" "owner" false 1).1 =
      .error (.relationNotFound "document" "owner") ∧
    (CheckNamespaceAndRelation dsOk mgr0 "document" Ellipsis true 1).1 =
      .ok () := by
  have t1 := checkNamespaceAndRelation_spec dsOk mgr0 "document" "editor"
    false 1 (FilterUserDefinedMetadata docDef) rfl
  have t2 := checkNamespaceAndRelation_spec dsOk mgr0 "document" "owner"
    false 1 (FilterUserDefinedMetadata docDef) rfl
  have t3 := checkNamespaceAndRelation_spec dsOk mgr0 "document" Ellipsis
    true 1 (FilterUserDefinedMetadata docDef) rfl
  refine ⟨t1.1.mpr (Or.inr (by simp [FilterUserDefinedMetadata, docDef])),
    ?_, t3.1.mpr (Or.inl ⟨rfl, rfl⟩)⟩
  refine t2.2.1 fun hok => ?_
  have hcond := t2.1.mp hok
  simp [FilterUserDefinedMetadata, docDef] at hcond

/-- C9: whenever `ReadNamespace` returns an error, the manager (and so the
cache) is left exactly as it was: nothing is inserted on any error path. -/
theorem readNamespace_error_atomic (ds : Datastore) (nsc : CachingManager)
    (nsName : String) (revision : Int) (e : Err)
    (h : (ReadNamespace ds nsc nsName revision).1 = .error e) :
    (ReadNamespace ds nsc nsName revision).2.1 = nsc := by
  cases hk : ds.namespaceCacheKey nsName revision with
  | error e' => simp [ReadNamespace, hk]
  | ok key =>
    cases hg : cacheGet nsc.c key with
    | some v => simp [ReadNamespace, hk, hg] at h
    | none =>
      cases hf : ds.readNamespace nsName revision with
      | error e' => cases e' <;> simp [ReadNamespace, hk, hg, hf]
      | ok loaded => simp [ReadNamespace, hk, hg, hf] at h

/-- Witness for C9: a failing datastore fetch leaves the fresh manager
unchanged. -/
theorem readNamespace_error_atomic_witness :
    (ReadNamespace dsFailing mgr0 "document" 1).2.1 = mgr0 :=
  readNamespace_error_atomic dsFailing mgr0 "document" 1
    (.dsOther "boom") rfl

/-- C10: the wildcard short-circuit in `CheckNamespaceAndRelation` never
bypasses namespace existence: any `ReadNamespace` error — including for
`allowEllipsis = true` with the wildcard relation — is returned first. -/
theorem checkNamespaceAndRelation_requires_namespace (ds : Datastore)
    (nsc : CachingManager) (ns relation : String) (allowEllipsis : Bool)
    (revision : Int) (e : Err)
    (h : (ReadNamespace ds nsc ns revision).1 = .error e) :
    (CheckNamespaceAndRelation ds nsc ns relation allowEllipsis revision).1 =
      .error e := by
  rcases hres : ReadNamespace ds nsc ns revision with ⟨res, nsc', n⟩
  rw [hres] at h
  simp only at h
  subst h
  simp [CheckNamespaceAndRelation, hres]

/-- Witness for C10: with a not-found datastore, the wildcard check with
`allowEllipsis = true` still reports `NamespaceNotFound`. -/
theorem checkNamespaceAndRelation_requires_namespace_witness :
    (CheckNamespaceAndRelation dsNotFound mgr0 "document" Ellipsis
      true 1).1 = .error (.namespaceNotFound "document") :=
  checkNamespaceAndRelation_requires_namespace dsNotFound mgr0 "document"
    Ellipsis true 1 (.namespaceNotFound "document") rfl

/-- C5: `ReadNamespaceAndTypes` obtains the definition via `ReadNamespace`
and recomputes the type system by invoking the builder on this call's
definition, leaving the manager exactly as `ReadNamespace` left it (the
type system is never read from or written to the cache); when
`ReadNamespace` succeeds but the build fails, the definition is still
returned alongside the build error. -/
theorem readNamespaceAndTypes_spec {TS : Type} (ds : Datastore)
    (build : NamespaceDefinition → CachingManager → Int → Except Err TS)
    (nsc : CachingManager) (nsName : String) (revision : Int) :
    (∀ e, (ReadNamespace ds nsc nsName revision).1 = .error e →
      ReadNamespaceAndTypes ds build nsc nsName revision =
        ((none, none, some e), (ReadNamespace ds nsc nsName revision).2)) ∧
    (∀ d, (ReadNamespace ds nsc nsName revision).1 = .ok d →
      (∀ terr,
        build d (ReadNamespace ds nsc nsName revision).2.1 revision =
          .error terr →
        ReadNamespaceAndTypes ds build nsc nsName revision =
          ((some d, none, some terr),
           (ReadNamespace ds nsc nsName revision).2)) ∧
      (∀ ts,
        build d (ReadNamespace ds nsc nsName revision).2.1 revision = .ok ts →
        ReadNamespaceAndTypes ds build nsc nsName revision =
          ((some d, some ts, none),
           (ReadNamespace ds nsc nsName revision).2))) := by
  rcases hres : ReadNamespace ds nsc nsName revision with ⟨res, nsc', n⟩
  cases res with
  | error e =>
    refine ⟨fun e' he' => ?_, fun d hd => ?_⟩
    · simp only at he'
      simp [ReadNamespaceAndTypes, hres, he']
    · simp at hd
  | ok d0 =>
    refine ⟨fun e' he' => ?_, fun d hd => ?_⟩
    · simp at he'
    · simp only at hd
      rw [hd] at hres
      refine ⟨fun terr hterr => ?_, fun ts hts => ?_⟩
      · simp only at hterr
        simp [ReadNamespaceAndTypes, hres, hterr]
      · simp only at hts
        simp [ReadNamespaceAndTypes, hres, hts]

/-- A type-system builder that depends only on the definition. -/
def buildCount : NamespaceDefinition → CachingManager → Int → Except Err Nat :=
  fun d _ _ => .ok d.relation.length

/-- A type-system builder that always fails. -/
def buildFail : NamespaceDefinition → CachingManager → Int → Except Err Nat :=
  fun _ _ _ => .error (.dsOther "type system build failed")

/-- Witness for C5: with a failing builder the definition is still
returned beside the build error; with a succeeding builder the freshly
built type system is returned; a `ReadNamespace` error propagates. -/
theorem readNamespaceAndTypes_spec_witness :
    ReadNamespaceAndTypes dsOk buildFail mgr0 "document" 1 =
      ((some (FilterUserDefinedMetadata docDef), none,
        some (.dsOther "type system build failed")),
       (ReadNamespace dsOk mgr0 "document" 1).2) ∧
    ReadNamespaceAndTypes dsOk buildCount mgr0 "document" 1 =
      ((some (FilterUserDefinedMetadata docDef), some 2, none),
       (ReadNamespace dsOk mgr0 "document" 1).2) ∧
    ReadNamespaceAndTypes dsNotFound buildCount mgr0 "document" 1 =
      ((none, none, some (.namespaceNotFound "document")),
       (ReadNamespace dsNotFound mgr0 "document" 1).2) := by
  refine ⟨?_, ?_, ?_⟩
  · exact ((readNamespaceAndTypes_spec dsOk buildFail mgr0 "document" 1).2
      (FilterUserDefinedMetadata docDef) rfl).1
      (.dsOther "type system build failed") rfl
  · exact ((readNamespaceAndTypes_spec dsOk buildCount mgr0 "document" 1).2
      (FilterUserDefinedMetadata docDef) rfl).2 2 rfl
  · exact (readNamespaceAndTypes_spec dsNotFound buildCount mgr0
      "document" 1).1 (.namespaceNotFound "document") rfl

/-- C7: with no cache configuration supplied, construction behaves exactly
as with the default configuration (10,000 tracked counters, a 2^24-byte
maximum cost, batch width 64); and whenever the underlying cache cannot be
created, construction returns an `InitializationError` wrapping the
underlying failure and no manager. -/
theorem newCachingNamespaceManager_spec
    (newCache : RistrettoConfig → Except String Cache) (expiration : Int) :
    (NewCachingNamespaceManager newCache expiration none =
      NewCachingNamespaceManager newCache expiration
        (some { numCounters := 10000, maxCost := 2 ^ 24, bufferItems := 64 })) ∧
    (∀ cfg e, newCache cfg = .error e →
      NewCachingNamespaceManager newCache expiration (some cfg) =
        .error (.initialization e)) ∧
    (∀ e,
      newCache { numCounters := 10000, maxCost := 2 ^ 24, bufferItems := 64 } =
        .error e →
      NewCachingNamespaceManager newCache expiration none =
        .error (.initialization e)) := by
  refine ⟨rfl, fun cfg e h => ?_, fun e h => ?_⟩
  · simp [NewCachingNamespaceManager, h]
  · rw [show ((2 : Int) ^ 24) = 16777216 by norm_num] at h
    simp [NewCachingNamespaceManager, h]

/-- Witness for C7: a failing cache creation makes construction fail with
the initialization error, both without and with an explicit config. -/
theorem newCachingNamespaceManager_spec_witness :
    NewCachingNamespaceManager (fun _ => .error "cache creation failed")
      0 none = .error (.initialization "cache creation failed") ∧
    NewCachingNamespaceManager (fun _ => .error "cache creation failed")
      0 (some { numCounters := 1, maxCost := 2, bufferItems := 3 }) =
      .error (.initialization "cache creation failed") :=
  ⟨(newCachingNamespaceManager_spec (fun _ => .error "cache creation failed")
      0).2.2 "cache creation failed" rfl,
   (newCachingNamespaceManager_spec (fun _ => .error "cache creation failed")
      0).2.1 { numCounters := 1, maxCost := 2, bufferItems := 3 }
      "cache creation failed" rfl⟩

/-- The observable parts of `ReadNamespace` — result, updated cache
contents, fetch count — depend only on the manager's cache contents, and
the stored expiration rides through unread. -/
theorem readNamespace_ignores_expiration (ds : Datastore) (e1 e2 : Int)
    (cc : Cache) (nsName : String) (revision : Int) :
    (ReadNamespace ds ⟨e1, cc⟩ nsName revision).1 =
      (ReadNamespace ds ⟨e2, cc⟩ nsName revision).1 ∧
    (ReadNamespace ds ⟨e1, cc⟩ nsName revision).2.1.c =
      (ReadNamespace ds ⟨e2, cc⟩ nsName revision).2.1.c ∧
    (ReadNamespace ds ⟨e1, cc⟩ nsName revision).2.1.expiration = e1 ∧
    (ReadNamespace ds ⟨e2, cc⟩ nsName revision).2.1.expiration = e2 ∧
    (ReadNamespace ds ⟨e1, cc⟩ nsName revision).2.2 =
      (ReadNamespace ds ⟨e2, cc⟩ nsName revision).2.2 := by
  cases hk : ds.namespaceCacheKey nsName revision with
  | error e => simp [ReadNamespace, hk]
  | ok key =>
    cases hg : cacheGet cc key with
    | some v => simp [ReadNamespace, hk, hg]
    | none =>
      cases hf : ds.readNamespace nsName revision with
      | error e => cases e <;> simp [ReadNamespace, hk, hg, hf]
      | ok loaded => simp [ReadNamespace, hk, hg, hf]

/-- C8: the expiration argument has no observable effect: two managers
identical except for expiration produce identical observable outcomes
(returned values, cache contents, fetch counts) on `ReadNamespace`,
`ReadNamespaceAndTypes`, `CheckNamespaceAndRelation` and `Close`, for any
type-system builder that sees the manager only through its cache. -/
theorem expiration_unobservable {TS : Type} (ds : Datastore)
    (build : NamespaceDefinition → CachingManager → Int → Except Err TS)
    (hbuild : ∀ d (m1 m2 : CachingManager) r, m1.c = m2.c →
      build d m1 r = build d m2 r)
    (e1 e2 : Int) (cc : Cache) (nsName relation : String)
    (allowEllipsis : Bool) (revision : Int) :
    ((ReadNamespace ds ⟨e1, cc⟩ nsName revision).1 =
        (ReadNamespace ds ⟨e2, cc⟩ nsName revision).1 ∧
      (ReadNamespace ds ⟨e1, cc⟩ nsName revision).2.1.c =
        (ReadNamespace ds ⟨e2, cc⟩ nsName revision).2.1.c ∧
      (ReadNamespace ds ⟨e1, cc⟩ nsName revision).2.2 =
        (ReadNamespace ds ⟨e2, cc⟩ nsName revision).2.2) ∧
    ((ReadNamespaceAndTypes ds build ⟨e1, cc⟩ nsName revision).1 =
        (ReadNamespaceAndTypes ds build ⟨e2, cc⟩ nsName revision).1 ∧
      (ReadNamespaceAndTypes ds build ⟨e1, cc⟩ nsName revision).2.1.c =
        (ReadNamespaceAndTypes ds build ⟨e2, cc⟩ nsName revision).2.1.c ∧
      (ReadNamespaceAndTypes ds build ⟨e1, cc⟩ nsName revision).2.2 =
        (ReadNamespaceAndTypes ds build ⟨e2, cc⟩ nsName revision).2.2) ∧
    ((CheckNamespaceAndRelation ds ⟨e1, cc⟩ nsName relation allowEllipsis
        revision).1 =
        (CheckNamespaceAndRelation ds ⟨e2, cc⟩ nsName relation allowEllipsis
          revision).1 ∧
      (CheckNamespaceAndRelation ds ⟨e1, cc⟩ nsName relation allowEllipsis
        revision).2.1.c =
        (CheckNamespaceAndRelation ds ⟨e2, cc⟩ nsName relation allowEllipsis
          revision).2.1.c ∧
      (CheckNamespaceAndRelation ds ⟨e1, cc⟩ nsName relation allowEllipsis
        revision).2.2 =
        (CheckNamespaceAndRelation ds ⟨e2, cc⟩ nsName relation allowEllipsis
          revision).2.2) ∧
    ((Close ⟨e1, cc⟩).1 = (Close ⟨e2, cc⟩).1 ∧
      (Close ⟨e1, cc⟩).2.c = (Close ⟨e2, cc⟩).2.c) := by
  obtain ⟨hres, hcache, _, _, hcount⟩ :=
    readNamespace_ignores_expiration ds e1 e2 cc nsName revision
  rcases h1 : ReadNamespace ds ⟨e1, cc⟩ nsName revision with ⟨res1, m1, n1⟩
  rcases h2 : ReadNamespace ds ⟨e2, cc⟩ nsName revision with ⟨res2, m2, n2⟩
  rw [h1, h2] at hres hcache hcount
  simp only at hres hcache hcount
  subst hres
  subst hcount
  refine ⟨by simp [h1, h2, hcache], ?_, ?_, ⟨rfl, rfl⟩⟩
  · cases res1 with
    | error e => simp [ReadNamespaceAndTypes, h1, h2, hcache]
    | ok d =>
      have hb : build d m1 revision = build d m2 revision :=
        hbuild d m1 m2 revision hcache
      cases hb1 : build d m1 revision with
      | error terr =>
        simp [ReadNamespaceAndTypes, h1, h2, hb1, hb ▸ hb1, hcache]
      | ok ts =>
        simp [ReadNamespaceAndTypes, h1, h2, hb1, hb ▸ hb1, hcache]
  · cases res1 with
    | error e => simp [CheckNamespaceAndRelation, h1, h2, hcache]
    | ok config =>
      by_cases hc1 : (allowEllipsis && relation == Ellipsis) = true
      · simp [CheckNamespaceAndRelation, h1, h2, hc1, hcache]
      · by_cases hc2 :
          config.relation.any (fun rel => rel.name == relation) = true
        · simp [CheckNamespaceAndRelation, h1, h2, hc1, hc2, hcache]
        · simp [CheckNamespaceAndRelation, h1, h2, hc1, hc2, hcache]

/-- Witness for C8 at concrete expirations 5 and 99: the observable
results of `ReadNamespace` and `ReadNamespaceAndTypes` coincide. -/
theorem expiration_unobservable_witness :
    (ReadNamespace dsOk ⟨5, []⟩ "document" 1).1 =
      (ReadNamespace dsOk ⟨99, []⟩ "document" 1).1 ∧
    (ReadNamespaceAndTypes dsOk buildCount ⟨5, []⟩ "document" 1).1 =
      (ReadNamespaceAndTypes dsOk buildCount ⟨99, []⟩ "document" 1).1 ∧
    (CheckNamespaceAndRelation dsOk ⟨5, []⟩ "document" "viewer" false 1).1 =
      (CheckNamespaceAndRelation dsOk ⟨99, []⟩ "document" "viewer" false 1).1 := by
  have t := expiration_unobservable dsOk buildCount
    (fun d m1 m2 r h => rfl) 5 99 [] "document" "viewer" false 1
  exact ⟨t.1.1, t.2.1.1, t.2.2.1.1⟩

end SpiceDB
